import Mathlib

/-!
Verification of the Akumuli streaming query-processing pipeline
(`src/queryprocessor.cpp`): a shallow embedding of the sample data model,
the operator nodes (reservoir sampler, sliding-window aggregators,
Space-Saving counters, anomaly-detector adapter, id filters), the
group-by-time driver, the scan query processor, and the node builder;
followed by theorems checking the specification's claims against this
embedding.

Modelling conventions:
- C++ `double` values are embedded as `ℚ`; every concrete value used in a
  theorem is exactly representable in binary64, and no claim depends on
  floating-point rounding.
- `std::unordered_map` is embedded as an association list kept in insertion
  order (the C++ iteration order is unspecified; no claim below depends on
  it, see each theorem).
- A node's successor (`next_`) is embedded as an explicit record of
  `put`/`complete`/`set_error` functions threading a successor state, so
  early termination on a `false` return of `put` is represented faithfully.
  The `collector` successor records every delivered event and always
  accepts, playing the role of the sink in the spec's scenarios.
- `aku_Timestamp`/`aku_ParamId` (unsigned 64-bit) are embedded as `ℕ`;
  where the source can wrap around (the group-by bound updates) the
  arithmetic is taken modulo `2 ^ 64` explicitly.
-/

/-! ## Definitions: the embedded data model and operators -/

/-- The payload type bitset of `aku_PData` as the spec describes it
(`akumuli.h` itself is not part of the given sources): a small bitset of
flags, with `EMPTY` being the absence of every flag.  The `blob` flag
stands for the non-float data kinds, so a blob sample is a non-empty
sample without `FLOAT_BIT`. -/
structure PayloadType where
  float_bit : Bool
  paramid_bit : Bool
  urgent : Bool
  blob : Bool
deriving DecidableEq, Repr

/-- `aku_PData::EMPTY`: no flag set. -/
def PayloadType.EMPTY : PayloadType := ⟨false, false, false, false⟩

/-- `AKU_PAYLOAD_FLOAT`: just the float bit. -/
def PayloadType.FLOAT : PayloadType := ⟨true, false, false, false⟩

/-- `aku_PData::PARAMID_BIT|aku_PData::FLOAT_BIT`, the type SpaceSaver
gives to the samples it emits. -/
def PayloadType.PARAMID_FLOAT : PayloadType := ⟨true, true, false, false⟩

/-- `aku_Sample`: series id, timestamp, payload type and the `float64`
view of the payload value union. -/
structure Sample where
  paramid : ℕ
  timestamp : ℕ
  ptype : PayloadType
  value : ℚ
deriving DecidableEq, Repr

/-- `static aku_Sample EMPTY_SAMPLE = {};` — the zero-initialised empty
sample: every field zero, payload type `EMPTY`.  Note its timestamp is 0. -/
def EMPTY_SAMPLE : Sample := ⟨0, 0, PayloadType.EMPTY, 0⟩

/-- A fresh empty sentinel carrying timestamp `t`, as the group-by driver
builds one (`aku_Sample empty = EMPTY_SAMPLE; empty.timestamp = upperbound_;`). -/
def sentinelAt (t : ℕ) : Sample := ⟨0, t, PayloadType.EMPTY, 0⟩

/-- The `aku_Status` values the pipeline core uses (from the spec's status
subset; the numeric codes of `akumuli.h` are not in the given sources). -/
inductive Status where
  | ok
  | eanomaly_neg_val
  | other (code : ℕ)
deriving DecidableEq, Repr

/-- What a successor node observes: a delivered sample, a `complete`
call, or a `set_error` call. -/
inductive Event where
  | smp (s : Sample)
  | complete
  | err (st : Status)
deriving DecidableEq, Repr

/-- The `Node` interface (put / complete / set_error) of a successor,
threading a successor state of type `ν`.  `put` returns the C++ `bool`. -/
structure NodeFn (ν : Type) where
  put : ν → Sample → ν × Bool
  complete : ν → ν
  set_error : ν → Status → ν

/-- The sink used in the scenarios: records every event and always
accepts. -/
def collector : NodeFn (List Event) where
  put es s := (es ++ [Event.smp s], true)
  complete es := es ++ [Event.complete]
  set_error es st := es ++ [Event.err st]

/-- Deliver a list of samples to `next` one by one, stopping at the first
`false` (the shape of the emission loops in `RandomSamplingNode::flush`
and `SpaceSaver::count`). -/
def putAll (next : NodeFn ν) : ν → List Sample → ν × Bool
  | nst, [] => (nst, true)
  | nst, s :: rest =>
    match next.put nst s with
    | (n1, true) => putAll next n1 rest
    | (n1, false) => (n1, false)

/-- The comparison `std::stable_sort` uses in `RandomSamplingNode::flush`:
`make_tuple(timestamp, paramid) < make_tuple(timestamp, paramid)` turned
into the equivalent non-strict total order for `mergeSort`. -/
def tsIdLe (a b : Sample) : Bool :=
  a.timestamp < b.timestamp ||
    (a.timestamp == b.timestamp && a.paramid ≤ b.paramid)

/-- `RandomSamplingNode`: capacity, buffer, and the per-node PRNG
(`Rand random_`), embedded as a stream of draws `random` consumed at
index `rk`. -/
structure RandomSamplingNode where
  buffer_size : ℕ
  samples : List Sample
  random : ℕ → ℕ
  rk : ℕ

/-- `RandomSamplingNode::flush`: stable-sort the buffer by (timestamp,
paramid), deliver the elements in order, and clear the buffer; on a
rejected `put` stop and keep the (sorted, uncleared) buffer. -/
def RandomSamplingNode.flush (r : RandomSamplingNode) (next : NodeFn ν)
    (nst : ν) : RandomSamplingNode × ν × Bool :=
  let sorted := r.samples.mergeSort tsIdLe
  match putAll next nst sorted with
  | (n1, true) => ({ r with samples := [] }, n1, true)
  | (n1, false) => ({ r with samples := sorted }, n1, false)

/-- `RandomSamplingNode::complete`: flush, then forward `complete`. -/
def RandomSamplingNode.complete (r : RandomSamplingNode) (next : NodeFn ν)
    (nst : ν) : RandomSamplingNode × ν :=
  let (r1, n1, _) := r.flush next nst
  (r1, next.complete n1)

/-- `RandomSamplingNode::put`: an empty sentinel triggers `flush` (the
sentinel itself is not forwarded); a data sample is appended while the
buffer is below capacity, otherwise it replaces the buffered sample at
index `random() % size` whenever that index is below capacity. -/
def RandomSamplingNode.put (r : RandomSamplingNode) (next : NodeFn ν)
    (nst : ν) (sample : Sample) : RandomSamplingNode × ν × Bool :=
  if sample.ptype = PayloadType.EMPTY then
    r.flush next nst
  else
    if r.samples.length < r.buffer_size then
      ({ r with samples := r.samples ++ [sample] }, nst, true)
    else
      let ix := r.random r.rk % r.samples.length
      if ix < r.buffer_size then
        ({ r with samples := r.samples.set ix sample, rk := r.rk + 1 },
         nst, true)
      else
        ({ r with rk := r.rk + 1 }, nst, true)

/-- Feed a stream of samples into a reservoir node whose successor is the
accepting collector, keeping only the node state. -/
def RandomSamplingNode.runPuts (r : RandomSamplingNode) :
    List Sample → RandomSamplingNode
  | [] => r
  | s :: rest => ((r.put collector [] s).1).runPuts rest

/-- The per-series state interface of `SlidingWindow<State>`: `reset`,
`value`, `ready`, `add`, plus the default-constructed state that
`counters_[id]` creates for an absent id. -/
structure SWOps (σ : Type) where
  reset : σ → σ
  value : σ → ℚ
  ready : σ → Bool
  add : σ → Sample → σ
  dflt : σ

/-- `counters_[sample.paramid]` followed by `state.add(sample)`: update
the entry in place if the id is present, otherwise default-construct one
(at the end, standing in for the unordered map's unspecified placement)
and add to it. -/
def swAdd (ops : SWOps σ) (s : Sample) :
    List (ℕ × σ) → List (ℕ × σ)
  | [] => [(s.paramid, ops.add ops.dflt s)]
  | (k, v) :: rest =>
    if k = s.paramid then (k, ops.add v s) :: rest
    else (k, v) :: swAdd ops s rest

/-- `SlidingWindow::average_samples(ts)`: walk the counters; for each
ready state emit `{paramid, timestamp := ts, payload := FLOAT,
value := state.value()}` after resetting the state, aborting on a
rejected `put`; after the walk deliver `EMPTY_SAMPLE` (the shared
zero-initialised sample) to the successor. -/
def averageSamples (ops : SWOps σ) (next : NodeFn ν) (ts : ℕ) :
    List (ℕ × σ) → ν → List (ℕ × σ) × ν × Bool
  | [], nst =>
    match next.put nst EMPTY_SAMPLE with
    | (n1, ok) => ([], n1, ok)
  | (k, v) :: rest, nst =>
    if ops.ready v then
      let sample : Sample := ⟨k, ts, PayloadType.FLOAT, ops.value v⟩
      let v2 := ops.reset v
      match next.put nst sample with
      | (n1, true) =>
        match averageSamples ops next ts rest n1 with
        | (cs, n2, ok2) => ((k, v2) :: cs, n2, ok2)
      | (n1, false) => ((k, v2) :: rest, n1, false)
    else
      match averageSamples ops next ts rest nst with
      | (cs, n2, ok2) => ((k, v) :: cs, n2, ok2)

/-- `SlidingWindow::put`: an empty sentinel triggers `average_samples`
with the sentinel's timestamp; any other sample is added to its series
state.  (The comment in the source says blobs are ignored, but no branch
tests `FLOAT_BIT`.) -/
def SlidingWindow.put (ops : SWOps σ) (next : NodeFn ν)
    (counters : List (ℕ × σ)) (nst : ν) (sample : Sample) :
    List (ℕ × σ) × ν × Bool :=
  if sample.ptype = PayloadType.EMPTY then
    match averageSamples ops next sample.timestamp counters nst with
    | (cs, n1, ok) => (cs, n1, ok)
  else
    (swAdd ops sample counters, nst, true)

/-- `SlidingWindow::complete`: forward only (no flush). -/
def SlidingWindow.complete (next : NodeFn ν) (counters : List (ℕ × σ))
    (nst : ν) : List (ℕ × σ) × ν :=
  (counters, next.complete nst)

/-- `MovingAverageCounter`: accumulator and count. -/
structure MovingAverageCounter where
  acc : ℚ
  num : ℕ
deriving DecidableEq, Repr

/-- The `SWOps` instance spelled out by `MovingAverageCounter`:
`reset` zeroes both fields, `value` is `acc/num`, `ready` is `num != 0`,
`add` accumulates `payload.value.float64` and increments `num`. -/
def movingAverageOps : SWOps MovingAverageCounter where
  reset _ := ⟨0, 0⟩
  value st := st.acc / (st.num : ℚ)
  ready st := st.num != 0
  add st s := ⟨st.acc + s.value, st.num + 1⟩
  dflt := ⟨0, 0⟩

/-- `MovingMedianCounter`: the buffered values. -/
structure MovingMedianCounter where
  acc : List ℚ
deriving DecidableEq, Repr

/-- `MovingMedianCounter::value`.  The source partially sorts up to the
middle iterator and dereferences it; for fewer than two elements it
returns `acc.at(0)` (and panics on an empty buffer, which `ready`
prevents — embedded as the junk value 0).  For two or more elements the
element read at position `size/2` is embedded as that position of the
fully sorted buffer, the value `std::partial_sort` places immediately
before the middle iterator's range boundary. -/
def MovingMedianCounter.value (st : MovingMedianCounter) : ℚ :=
  if st.acc.length < 2 then st.acc.headD 0
  else (st.acc.mergeSort (fun a b => a ≤ b)).getD (st.acc.length / 2) 0

/-- The `SWOps` instance spelled out by `MovingMedianCounter`. -/
def movingMedianOps : SWOps MovingMedianCounter where
  reset _ := ⟨[]⟩
  value := MovingMedianCounter.value
  ready st := !st.acc.isEmpty
  add st s := ⟨st.acc ++ [s.value]⟩
  dflt := ⟨[]⟩

/-- An entry of the Space-Saving counter map: `{double count; double error;}`. -/
structure SSItem where
  count : ℚ
  error : ℚ
deriving DecidableEq, Repr

/-- `SpaceSaver` state: the counter map (insertion-ordered association
list), the cumulative weight `N`, the capacity `M` and the portion `P`. -/
structure SpaceSaverState where
  counters : List (ℕ × SSItem)
  N : ℚ
  M : ℕ
  P : ℚ
deriving DecidableEq, Repr

/-- The ceiling the constructor computes: `M(ceil(1.0/error))`. -/
def ssCapacity (error : ℚ) : ℕ := ⌈1 / error⌉.toNat

/-- The `SpaceSaver` constructor: empty map, `N = 0`, `M = ceil(1/error)`,
`P = portion`. -/
def mkSpaceSaver (error portion : ℚ) : SpaceSaverState :=
  ⟨[], 0, ssCapacity error, portion⟩

/-- The C++ conversion `min = i->second.count` of a `double` into the
`size_t` variable `min`: truncation toward zero (for the non-negative
counts the claims concern; a negative count would make the conversion
undefined in C++ and is embedded as 0 here). -/
def truncQ (q : ℚ) : ℕ := ⌊q⌋.toNat

/-- `std::numeric_limits<size_t>::max()`, the initial value of `min` in
the eviction scan. -/
def sizeTMax : ℕ := 2 ^ 64 - 1

/-- The eviction scan of `SpaceSaver::put`: walk the counters keeping
`min_iter` (here the index of the entry) and the truncated running
minimum `min`, comparing each `double` count against the `size_t`
minimum.  Returns `none` when no entry ever satisfies
`count < min` (then the source erases the end iterator — undefined
behaviour). -/
def ssScanMin : List (ℕ × SSItem) → ℕ → Option ℕ × ℕ → Option ℕ × ℕ
  | [], _, acc => acc
  | (_, it) :: rest, i, (mi, mn) =>
    if it.count < (mn : ℚ) then ssScanMin rest (i + 1) (some i, truncQ it.count)
    else ssScanMin rest (i + 1) (mi, mn)

/-- Look up an id in the counter map (`counters_.find(id)`). -/
def ssFind (id : ℕ) : List (ℕ × SSItem) → Option SSItem
  | [] => none
  | (k, v) :: rest => if k = id then some v else ssFind id rest

/-- `it->second.count += weight` on the entry found for `id`. -/
def ssBump (id : ℕ) (w : ℚ) : List (ℕ × SSItem) → List (ℕ × SSItem)
  | [] => []
  | (k, v) :: rest =>
    if k = id then (k, ⟨v.count + w, v.error⟩) :: rest
    else (k, v) :: ssBump id w rest

/-- `SpaceSaver::count`: gather a sample for every entry whose
`count - error` exceeds the support `N*P`, sort the gathered samples by
descending `value` (`std::sort` with `>`), deliver them, and clear the
map — `N` is left untouched.  On a rejected `put` nothing is cleared.
The emitted samples' timestamps are left uninitialised by the source;
they are embedded as 0 and no claim refers to them. -/
def SpaceSaverState.count (ss : SpaceSaverState) (next : NodeFn ν)
    (nst : ν) : SpaceSaverState × ν × Bool :=
  let support := ss.N * ss.P
  let samples := ss.counters.filterMap (fun it =>
    if support < it.2.count - it.2.error then
      some (⟨it.1, 0, PayloadType.PARAMID_FLOAT, it.2.count⟩ : Sample)
    else none)
  let sorted := samples.mergeSort (fun a b => b.value ≤ a.value)
  match putAll next nst sorted with
  | (n1, true) => ({ ss with counters := [] }, n1, true)
  | (n1, false) => (ss, n1, false)

/-- `SpaceSaver::complete`: `count()` then forward `complete`. -/
def SpaceSaverState.complete (ss : SpaceSaverState) (next : NodeFn ν)
    (nst : ν) : SpaceSaverState × ν :=
  let (ss1, n1, _) := ss.count next nst
  (ss1, next.complete n1)

/-- `SpaceSaver<weighted>::put`.  An empty sentinel triggers `count()`.
For the weighted instantiation a sample without `FLOAT_BIT` is dropped.
A present id has its count incremented by the weight; an absent id is
inserted with `{count: weight, error: 0}`, after first evicting the
minimum entry and adding its truncated count when the map is at capacity
`M`.  `N` then grows by the weight.  The result is `none` exactly when
the eviction scan finds no entry (the source's `erase(end())`, undefined
behaviour). -/
def SpaceSaverState.put (weighted : Bool) (ss : SpaceSaverState)
    (next : NodeFn ν) (nst : ν) (sample : Sample) :
    Option (SpaceSaverState × ν × Bool) :=
  if sample.ptype = PayloadType.EMPTY then
    some (ss.count next nst)
  else if weighted && !sample.ptype.float_bit then
    some (ss, nst, true)
  else
    let id := sample.paramid
    let weight : ℚ := if weighted then sample.value else 1
    match ssFind id ss.counters with
    | some _ =>
      some ({ ss with counters := ssBump id weight ss.counters,
                      N := ss.N + weight }, nst, true)
    | none =>
      if ss.counters.length = ss.M then
        match ssScanMin ss.counters 0 (none, sizeTMax) with
        | (none, _) => none
        | (some ix, mn) =>
          let c2 := ss.counters.eraseIdx ix
          some ({ ss with
                    counters := c2 ++ [(id, ⟨weight + (mn : ℚ), (mn : ℚ)⟩)],
                    N := ss.N + weight }, nst, true)
      else
        some ({ ss with counters := ss.counters ++ [(id, ⟨weight, 0⟩)],
                        N := ss.N + weight }, nst, true)

/-- Modelled from the spec: the abstract detector interface of
`anomalydetector.h` (not among the given sources) — `add(paramid, value)`,
`is_anomaly_candidate(paramid)`, `move_sliding_window()`, over an opaque
detector state `δ`. -/
structure DetectorOps (δ : Type) where
  add : δ → ℕ → ℚ → δ
  is_anomaly_candidate : δ → ℕ → Bool
  move_sliding_window : δ → δ

/-- `AnomalyDetector::put`.  An empty sentinel moves the sliding window
and is forwarded.  A `FLOAT_BIT` sample with a negative value propagates
`set_error(AKU_EANOMALY_NEG_VAL)` and returns `false`; otherwise it is
added to the detector and forwarded with the `URGENT` flag or-ed into its
payload type when the detector flags the series, and silently dropped
when it does not.  Samples without `FLOAT_BIT` (blobs) are ignored. -/
def AnomalyDetector.put (ops : DetectorOps δ) (next : NodeFn ν)
    (d : δ) (nst : ν) (sample : Sample) : δ × ν × Bool :=
  if sample.ptype = PayloadType.EMPTY then
    let d2 := ops.move_sliding_window d
    match next.put nst sample with
    | (n1, ok) => (d2, n1, ok)
  else if sample.ptype.float_bit then
    if sample.value < 0 then
      (d, next.set_error nst Status.eanomaly_neg_val, false)
    else
      let d2 := ops.add d sample.paramid sample.value
      if ops.is_anomaly_candidate d2 sample.paramid then
        let anomaly := { sample with
          ptype := { sample.ptype with urgent := true } }
        match next.put nst anomaly with
        | (n1, ok) => (d2, n1, ok)
      else (d2, nst, true)
  else
    (d, nst, true)

/-- `FilterByIdNode<Predicate>::put`: empty sentinels are always
forwarded; a data sample is forwarded iff the predicate accepts its id,
and dropped (returning `true`) otherwise. -/
def FilterByIdNode.put (op : ℕ → Bool) (next : NodeFn ν) (nst : ν)
    (sample : Sample) : ν × Bool :=
  if sample.ptype = PayloadType.EMPTY then next.put nst sample
  else if op sample.paramid then next.put nst sample
  else (nst, true)

/-- A filter node over the collector, packaged as a `NodeFn` so it can be
the `next` of a group-by driver. -/
def filterNode (op : ℕ → Bool) : NodeFn (List Event) where
  put es s := FilterByIdNode.put op collector es s
  complete es := collector.complete es
  set_error es st := collector.set_error es st

/-- The `Matcher` predicate of `NodeBuilder::make_filter_by_id_list`:
membership in the id set. -/
def idListMatcher (ids : List ℕ) (id : ℕ) : Bool := ids.contains id

/-- Unsigned 64-bit wrap-around of the group-by bound updates. -/
def u64add (a b : ℕ) : ℕ := (a + b) % 2 ^ 64

/-- Unsigned 64-bit subtraction `a - b` modulo `2^64`. -/
def u64sub (a b : ℕ) : ℕ := (a + (2 ^ 64 - b % 2 ^ 64)) % 2 ^ 64

/-- `GroupByStatement`: bucket width, first-hit flag and the current
bucket bounds. -/
structure GroupByStatement where
  step : ℕ
  first_hit : Bool
  lowerbound : ℕ
  upperbound : ℕ
deriving DecidableEq, Repr

/-- `GroupByStatement(step)`: bounds start at `AKU_MIN_TIMESTAMP` (0). -/
def mkGroupBy (step : ℕ) : GroupByStatement := ⟨step, true, 0, 0⟩

/-- `GroupByStatement::put`.  With a non-zero step: on the first sample
align the bounds to the sample; then a sample at or past the upper bound
emits one empty sentinel stamped with the upper bound and advances the
bounds one step (only one — there is no loop), a sample below the lower
bound emits one sentinel and retreats one step, and in every case the
sample itself is forwarded afterwards.  With step 0 the sample is
forwarded unchanged. -/
def GroupByStatement.put (g : GroupByStatement) (next : NodeFn ν)
    (nst : ν) (sample : Sample) : GroupByStatement × ν × Bool :=
  if g.step ≠ 0 then
    let ts := sample.timestamp
    let g1 :=
      if g.first_hit then
        let aligned := ts / g.step * g.step
        { g with first_hit := false, lowerbound := aligned,
                 upperbound := u64add aligned g.step }
      else g
    if ts ≥ g1.upperbound then
      match next.put nst (sentinelAt g1.upperbound) with
      | (n1, true) =>
        let g2 := { g1 with lowerbound := u64add g1.lowerbound g1.step,
                            upperbound := u64add g1.upperbound g1.step }
        match next.put n1 sample with
        | (n2, ok) => (g2, n2, ok)
      | (n1, false) => (g1, n1, false)
    else if ts < g1.lowerbound then
      match next.put nst (sentinelAt g1.upperbound) with
      | (n1, true) =>
        let g2 := { g1 with lowerbound := u64sub g1.lowerbound g1.step,
                            upperbound := u64sub g1.upperbound g1.step }
        match next.put n1 sample with
        | (n2, ok) => (g2, n2, ok)
      | (n1, false) => (g1, n1, false)
    else
      match next.put nst sample with
      | (n1, ok) => (g1, n1, ok)
  else
    match next.put nst sample with
    | (n1, ok) => (g, n1, ok)

/-- `ScanQueryProcessor::put` over a root chain `next`: delegate through
the group-by driver. -/
def ScanQueryProcessor.put (g : GroupByStatement) (next : NodeFn ν)
    (nst : ν) (sample : Sample) : GroupByStatement × ν × Bool :=
  g.put next nst sample

/-- `ScanQueryProcessor::stop`: `complete` on the root chain. -/
def ScanQueryProcessor.stop (next : NodeFn ν) (nst : ν) : ν :=
  next.complete nst

/-- Run a whole scan scenario: feed every input through
`ScanQueryProcessor::put` into the root chain, then `stop`; the result is
the event trace the sink observed. -/
def runScan (g : GroupByStatement) (next : NodeFn (List Event))
    (inputs : List Sample) : List Event :=
  let fin := inputs.foldl
    (fun (st : GroupByStatement × List Event) s =>
      let (g1, n1, _) := ScanQueryProcessor.put st.1 next st.2 s
      (g1, n1))
    (g, [])
  ScanQueryProcessor.stop next fin.2

/-- `Node::NodeType`, the tag enumeration of the node interface, with the
values the given sources use. -/
inductive NodeType where
  | RandomSampler
  | Resampler
  | MovingAverage
  | MovingMedian
  | SpaceSaver
  | AnomalyDetector
  | FilterById
deriving DecidableEq, Repr

/-- `AnomalyDetector::FcastMethod`. -/
inductive FcastMethod where
  | SMA
  | EWMA
  | SMA_SKETCH
  | EWMA_SKETCH
  | DOUBLE_HOLT_WINTERS
  | DOUBLE_HOLT_WINTERS_SKETCH
deriving DecidableEq, Repr

/-- The description of the operator `make_sampler` builds, carrying the
parsed parameters. -/
inductive BuiltNode where
  | randomSampling (size : ℕ)
  | movingAverage
  | movingMedian
  | spaceSaver (weighted : Bool) (error portion : ℚ)
  | anomalyDet (hashes bits : ℕ) (threshold : ℚ) (window : ℕ)
      (method : FcastMethod)
deriving DecidableEq, Repr

/-- What `make_sampler` can raise before the `catch` clauses translate
it: a `boost::property_tree` error (missing key or failed ptree
translation), a `boost::bad_lexical_cast`, an already-built
`NodeException`, a `QueryParserError`, or the untyped
`throw "Not implemented"` of the Holt-Winters branch. -/
inductive Raised where
  | ptreeErr
  | badLexicalCast
  | nodeExc (tag : NodeType) (msg : String)
  | queryParseErr (msg : String)
  | untypedStr (msg : String)
deriving DecidableEq, Repr

/-- The outcome of `make_sampler` as its caller sees it: a typed
`NodeException` with its node tag, a `QueryParserError`, or an untyped
exception. -/
inductive BuildError where
  | nodeException (tag : NodeType) (msg : String)
  | queryParserError (msg : String)
  | untypedError (msg : String)
deriving DecidableEq, Repr

/-- The scalar parsers of the boost facilities the source calls
(`boost::lexical_cast` and the ptree stream translators), abstracted:
`none` models a parse failure. -/
structure Parsers where
  u32 : String → Option ℕ
  f64 : String → Option ℚ
  bool : String → Option Bool

/-- `ptree.get<std::string>(key)`: raises a ptree error when absent. -/
def getStr (pt : List (String × String)) (key : String) :
    Except Raised String :=
  match pt.lookup key with
  | some v => Except.ok v
  | none => Except.error Raised.ptreeErr

/-- `boost::lexical_cast<uint32_t>`: `bad_lexical_cast` on failure. -/
def castU32 (p : Parsers) (s : String) : Except Raised ℕ :=
  match p.u32 s with
  | some n => Except.ok n
  | none => Except.error Raised.badLexicalCast

/-- `boost::lexical_cast<double>`: `bad_lexical_cast` on failure. -/
def castF64 (p : Parsers) (s : String) : Except Raised ℚ :=
  match p.f64 s with
  | some q => Except.ok q
  | none => Except.error Raised.badLexicalCast

/-- `ptree.get<double>(key)`: a ptree error both when the key is absent
and when the translation fails. -/
def getF64 (pt : List (String × String)) (p : Parsers) (key : String) :
    Except Raised ℚ :=
  match pt.lookup key with
  | some v =>
    match p.f64 v with
    | some q => Except.ok q
    | none => Except.error Raised.ptreeErr
  | none => Except.error Raised.ptreeErr

/-- `ptree.get<uint32_t>(key)` (throwing form). -/
def getU32 (pt : List (String × String)) (p : Parsers) (key : String) :
    Except Raised ℕ :=
  match pt.lookup key with
  | some v =>
    match p.u32 v with
    | some n => Except.ok n
    | none => Except.error Raised.ptreeErr
  | none => Except.error Raised.ptreeErr

/-- `ptree.get<bool>(key)` (throwing form). -/
def getBool (pt : List (String × String)) (p : Parsers) (key : String) :
    Except Raised Bool :=
  match pt.lookup key with
  | some v =>
    match p.bool v with
    | some b => Except.ok b
    | none => Except.error Raised.ptreeErr
  | none => Except.error Raised.ptreeErr

/-- `ptree.get<uint32_t>(key, default)`: the defaulted form returns the
default on any failure. -/
def getU32D (pt : List (String × String)) (p : Parsers) (key : String)
    (dflt : ℕ) : ℕ :=
  match pt.lookup key with
  | some v => (p.u32 v).getD dflt
  | none => dflt

/-- `parse_anomaly_detector_type`: read `approx` and `method`, then map
the method name, raising `QueryParserError` on an unknown one. -/
def parseAnomalyDetectorType (pt : List (String × String)) (p : Parsers) :
    Except Raised FcastMethod :=
  match getBool pt p "approx" with
  | Except.error e => Except.error e
  | Except.ok approx =>
    match getStr pt "method" with
    | Except.error e => Except.error e
    | Except.ok name =>
      if name = "ewma" then
        Except.ok (if approx then FcastMethod.EWMA_SKETCH
                   else FcastMethod.EWMA)
      else if name = "sma" then
        Except.ok (if approx then FcastMethod.SMA_SKETCH
                   else FcastMethod.SMA)
      else if name = "double-hw" then
        Except.ok (if approx then FcastMethod.DOUBLE_HOLT_WINTERS_SKETCH
                   else FcastMethod.DOUBLE_HOLT_WINTERS)
      else
        Except.error (Raised.queryParseErr "Unknown forecasting method")

/-- The `SLIDING_WINDOW` method set of `make_sampler`. -/
def slidingWindowMethods : List FcastMethod :=
  [FcastMethod.SMA, FcastMethod.SMA_SKETCH, FcastMethod.EWMA,
   FcastMethod.EWMA_SKETCH]

/-- The `HOLT_WINTERS` method set of `make_sampler`. -/
def holtWintersMethods : List FcastMethod :=
  [FcastMethod.DOUBLE_HOLT_WINTERS, FcastMethod.DOUBLE_HOLT_WINTERS_SKETCH]

/-- The body of `NodeBuilder::make_sampler`'s `try` block: dispatch on
the `name` key; the fall-through for an unrecognised name (and for the
unreachable method fall-through of the anomaly-detector branch) throws
the `NodeException` tagged `Node::RandomSampler` with message
`invalid sampler description, unknown algorithm`. -/
def makeSamplerBody (pt : List (String × String)) (p : Parsers) :
    Except Raised BuiltNode :=
  match getStr pt "name" with
  | Except.error e => Except.error e
  | Except.ok name =>
    if name = "reservoir" then
      match getStr pt "size" with
      | Except.error e => Except.error e
      | Except.ok size =>
        match castU32 p size with
        | Except.error e => Except.error e
        | Except.ok nsize => Except.ok (BuiltNode.randomSampling nsize)
    else if name = "moving-average" then
      Except.ok BuiltNode.movingAverage
    else if name = "moving-median" then
      Except.ok BuiltNode.movingMedian
    else if name = "frequent-items" then
      match getStr pt "error" with
      | Except.error e => Except.error e
      | Except.ok serror =>
        match getStr pt "portion" with
        | Except.error e => Except.error e
        | Except.ok sportion =>
          match castF64 p serror with
          | Except.error e => Except.error e
          | Except.ok error =>
            match castF64 p sportion with
            | Except.error e => Except.error e
            | Except.ok portion =>
              Except.ok (BuiltNode.spaceSaver false error portion)
    else if name = "heavy-hitters" then
      match getStr pt "error" with
      | Except.error e => Except.error e
      | Except.ok serror =>
        match getStr pt "portion" with
        | Except.error e => Except.error e
        | Except.ok sportion =>
          match castF64 p serror with
          | Except.error e => Except.error e
          | Except.ok error =>
            match castF64 p sportion with
            | Except.error e => Except.error e
            | Except.ok portion =>
              Except.ok (BuiltNode.spaceSaver true error portion)
    else if name = "anomaly-detector" then
      match getF64 pt p "threshold" with
      | Except.error e => Except.error e
      | Except.ok threshold =>
        match parseAnomalyDetectorType pt p with
        | Except.error e => Except.error e
        | Except.ok method =>
          if slidingWindowMethods.contains method then
            match getU32 pt p "window" with
            | Except.error e => Except.error e
            | Except.ok window =>
              Except.ok (BuiltNode.anomalyDet (getU32D pt p "hashes" 3)
                (getU32D pt p "bits" 10) threshold window method)
          else if holtWintersMethods.contains method then
            Except.error (Raised.untypedStr "Not implemented")
          else
            Except.error (Raised.nodeExc NodeType.RandomSampler
              "invalid sampler description, unknown algorithm")
    else
      Except.error (Raised.nodeExc NodeType.RandomSampler
        "invalid sampler description, unknown algorithm")

/-- `NodeBuilder::make_sampler`: the `try` body with its two `catch`
clauses — a ptree error becomes the `NodeException` tagged
`Node::RandomSampler` with message `invalid sampler description`, a
`bad_lexical_cast` the one with message
`invalid sampler description, valid integer expected`; everything else
(a thrown `NodeException`, a `QueryParserError`, the untyped string)
propagates unchanged. -/
def make_sampler (pt : List (String × String)) (p : Parsers) :
    Except BuildError BuiltNode :=
  match makeSamplerBody pt p with
  | Except.ok n => Except.ok n
  | Except.error Raised.ptreeErr =>
    Except.error (BuildError.nodeException NodeType.RandomSampler
      "invalid sampler description")
  | Except.error Raised.badLexicalCast =>
    Except.error (BuildError.nodeException NodeType.RandomSampler
      "invalid sampler description, valid integer expected")
  | Except.error (Raised.nodeExc t m) =>
    Except.error (BuildError.nodeException t m)
  | Except.error (Raised.queryParseErr m) =>
    Except.error (BuildError.queryParserError m)
  | Except.error (Raised.untypedStr m) =>
    Except.error (BuildError.untypedError m)

/-- The node kind a description's `name` names, through the `get_type`
implementation of the node the builder would construct for it:
`reservoir` builds a `RandomSamplingNode` (tag `RandomSampler`),
`frequent-items` and `heavy-hitters` build `SpaceSaver` nodes (tag
`SpaceSaver`), and so on. -/
def tagOfName (name : String) : Option NodeType :=
  if name = "reservoir" then some NodeType.RandomSampler
  else if name = "moving-average" then some NodeType.MovingAverage
  else if name = "moving-median" then some NodeType.MovingMedian
  else if name = "frequent-items" then some NodeType.SpaceSaver
  else if name = "heavy-hitters" then some NodeType.SpaceSaver
  else if name = "anomaly-detector" then some NodeType.AnomalyDetector
  else none

/-- Feed a stream of samples through a sliding-window aggregator over the
collector, returning the final counters and the sink's event trace. -/
def SlidingWindow.run (ops : SWOps σ) :
    List (ℕ × σ) → List Event → List Sample → List (ℕ × σ) × List Event
  | counters, es, [] => (counters, es)
  | counters, es, s :: rest =>
    match SlidingWindow.put ops collector counters es s with
    | (c1, n1, _) => SlidingWindow.run ops c1 n1 rest

/-- The inputs of end-to-end scenario 1 (filter + group-by). -/
def c3Inputs : List Sample :=
  [⟨7, 3, PayloadType.FLOAT, 1⟩, ⟨8, 4, PayloadType.FLOAT, 9⟩,
   ⟨7, 12, PayloadType.FLOAT, 2⟩, ⟨7, 25, PayloadType.FLOAT, 3⟩]

/-- Scenario 1: group-by with step 10 feeding an include-set filter for
id 7 feeding the sink, then `stop`. -/
def c3Trace : List Event :=
  runScan (mkGroupBy 10) (filterNode (idListMatcher [7])) c3Inputs

/-- Parsers that fail on every scalar (the parse outcome is irrelevant to
the descriptions they are used with). -/
def nilParsers : Parsers := ⟨fun _ => none, fun _ => none, fun _ => none⟩

/-- The key is absent from the description. -/
def missingKey (pt : List (String × String)) (key : String) : Prop :=
  pt.lookup key = none

/-- The key is present but its value does not parse as a `uint32_t`. -/
def badU32 (pt : List (String × String)) (p : Parsers) (key : String) :
    Prop :=
  ∃ v, pt.lookup key = some v ∧ p.u32 v = none

/-- The key is present but its value does not parse as a `double`. -/
def badF64 (pt : List (String × String)) (p : Parsers) (key : String) :
    Prop :=
  ∃ v, pt.lookup key = some v ∧ p.f64 v = none

/-- The key is present but its value does not parse as a `bool`. -/
def badBool (pt : List (String × String)) (p : Parsers) (key : String) :
    Prop :=
  ∃ v, pt.lookup key = some v ∧ p.bool v = none

/-! ## Theorems: the claims checked against the embedding -/

@[simp] theorem collector_put (es : List Event) (s : Sample) :
    collector.put es s = (es ++ [Event.smp s], true) := rfl

@[simp] theorem collector_complete (es : List Event) :
    collector.complete es = es ++ [Event.complete] := rfl

@[simp] theorem collector_set_error (es : List Event) (st : Status) :
    collector.set_error es st = es ++ [Event.err st] := rfl

theorem putAll_collector (es : List Event) (l : List Sample) :
    putAll collector es l = (es ++ l.map Event.smp, true) := by
  induction l generalizing es with
  | nil => simp [putAll]
  | cons s rest ih => simp [putAll, ih]

theorem tsIdLe_trans (a b c : Sample) :
    tsIdLe a b = true → tsIdLe b c = true → tsIdLe a c = true := by
  simp only [tsIdLe, Bool.or_eq_true, Bool.and_eq_true, decide_eq_true_eq,
    beq_iff_eq]
  omega

theorem tsIdLe_total (a b : Sample) : (tsIdLe a b || tsIdLe b a) = true := by
  simp only [tsIdLe, Bool.or_eq_true, Bool.and_eq_true, decide_eq_true_eq,
    beq_iff_eq]
  omega

/-- C10: for a reservoir whose buffer already holds `k = buffer_size > 0`
elements, `put` on a data sample always stores it: the drawn index
`random() % size` is below `k`, so the replacement happens
unconditionally; the buffer keeps exactly `k` elements, contains the new
sample, and `put` returns `true`. -/
theorem C10_full_reservoir_always_replaces (r : RandomSamplingNode)
    (s : Sample) (hne : s.ptype ≠ PayloadType.EMPTY)
    (hfull : r.samples.length = r.buffer_size)
    (hk : 0 < r.buffer_size) :
    r.put collector [] s =
      ({ r with
           samples := r.samples.set (r.random r.rk % r.samples.length) s,
           rk := r.rk + 1 }, [], true) ∧
    (r.put collector [] s).1.samples.length = r.buffer_size ∧
    s ∈ (r.put collector [] s).1.samples := by
  have hlen : 0 < r.samples.length := hfull ▸ hk
  have hix : r.random r.rk % r.samples.length < r.buffer_size :=
    hfull ▸ Nat.mod_lt _ hlen
  have hnlt : ¬ r.samples.length < r.buffer_size := by omega
  have heq : r.put collector [] s =
      ({ r with
           samples := r.samples.set (r.random r.rk % r.samples.length) s,
           rk := r.rk + 1 }, [], true) := by
    simp [RandomSamplingNode.put, hne, hnlt, hix]
  refine ⟨heq, ?_, ?_⟩
  · rw [heq]
    simp [hfull]
  · rw [heq]
    have hix' : r.random r.rk % r.samples.length <
        (r.samples.set (r.random r.rk % r.samples.length) s).length := by
      simpa using Nat.mod_lt _ hlen
    have hget := List.getElem_set_self (l := r.samples)
      (i := r.random r.rk % r.samples.length) (a := s) hix'
    show s ∈ r.samples.set (r.random r.rk % r.samples.length) s
    exact List.mem_iff_getElem.mpr ⟨_, hix', hget⟩

/-- C10 witness: a concrete full reservoir of capacity 1. -/
theorem C10_witness :
    ((⟨1, 0, PayloadType.FLOAT, 5⟩ : Sample).ptype ≠ PayloadType.EMPTY) ∧
    (0 < 1) ∧
    (⟨2, 9, PayloadType.FLOAT, 7⟩ : Sample) ∈
      ((RandomSamplingNode.mk 1 [⟨1, 0, PayloadType.FLOAT, 5⟩]
          (fun _ => 0) 0).put collector []
        ⟨2, 9, PayloadType.FLOAT, 7⟩).1.samples := by
  refine ⟨by decide, by decide, ?_⟩
  exact (C10_full_reservoir_always_replaces
    (RandomSamplingNode.mk 1 [⟨1, 0, PayloadType.FLOAT, 5⟩] (fun _ => 0) 0)
    ⟨2, 9, PayloadType.FLOAT, 7⟩ (by decide) (by decide) (by decide)).2.2

theorem flush_collector (r : RandomSamplingNode) (es : List Event) :
    r.flush collector es =
      ({ r with samples := [] },
       es ++ (r.samples.mergeSort tsIdLe).map Event.smp, true) := by
  simp [RandomSamplingNode.flush, putAll_collector]

theorem reservoir_put_data_length (r : RandomSamplingNode) (s : Sample)
    (hne : s.ptype ≠ PayloadType.EMPTY)
    (hle : r.samples.length ≤ r.buffer_size) :
    (r.put collector [] s).1.samples.length =
      min (r.samples.length + 1) r.buffer_size ∧
    (r.put collector [] s).1.buffer_size = r.buffer_size := by
  by_cases hlt : r.samples.length < r.buffer_size
  · simp [RandomSamplingNode.put, hne, hlt]
    omega
  · by_cases hix : r.random r.rk % r.samples.length < r.buffer_size
    · simp [RandomSamplingNode.put, hne, hlt, hix]
      omega
    · simp [RandomSamplingNode.put, hne, hlt, hix]
      omega

theorem runPuts_length (inputs : List Sample) (r : RandomSamplingNode)
    (hd : ∀ s ∈ inputs, s.ptype ≠ PayloadType.EMPTY)
    (hle : r.samples.length ≤ r.buffer_size) :
    (r.runPuts inputs).samples.length =
      min (r.samples.length + inputs.length) r.buffer_size ∧
    (r.runPuts inputs).buffer_size = r.buffer_size := by
  induction inputs generalizing r with
  | nil =>
    simp [RandomSamplingNode.runPuts]
    omega
  | cons s rest ih =>
    have hne : s.ptype ≠ PayloadType.EMPTY := hd s (by simp)
    have hstep := reservoir_put_data_length r s hne hle
    have hrest := ih ((r.put collector [] s).1)
      (fun x hx => hd x (by simp [hx]))
      (by omega)
    simp only [RandomSamplingNode.runPuts]
    constructor
    · rw [hrest.1, hstep.1, hstep.2, List.length_cons]
      omega
    · rw [hrest.2, hstep.2]

/-- C4: on an empty sentinel (and on `complete`) the reservoir delivers
its buffer stable-sorted by (timestamp, paramid) — a permutation of the
buffer, pairwise in that order — clears the buffer, forwards no empty
sentinel of its own (the delivered samples are exactly the buffered
ones), and `complete` is forwarded after the flush; and after `N` data
inputs into an initially empty reservoir of capacity `k > 0` the buffer —
hence the batch the next flush emits — holds `min(N, k)` samples. -/
theorem C4_reservoir_flush (r : RandomSamplingNode) (e : Sample)
    (he : e.ptype = PayloadType.EMPTY) :
    (r.put collector [] e =
      ({ r with samples := [] },
       (r.samples.mergeSort tsIdLe).map Event.smp, true)) ∧
    (r.samples.mergeSort tsIdLe).Perm r.samples ∧
    List.Pairwise (fun a b => tsIdLe a b = true)
      (r.samples.mergeSort tsIdLe) ∧
    (∀ s, Event.smp s ∈ (r.put collector [] e).2.1 ↔ s ∈ r.samples) ∧
    (r.complete collector [] =
      ({ r with samples := [] },
       (r.samples.mergeSort tsIdLe).map Event.smp ++ [Event.complete])) ∧
    (∀ inputs : List Sample, (∀ s ∈ inputs, s.ptype ≠ PayloadType.EMPTY) →
      0 < r.buffer_size → r.samples = [] →
      (r.runPuts inputs).samples.length =
        min inputs.length r.buffer_size) := by
  have hput : r.put collector [] e =
      ({ r with samples := [] },
       (r.samples.mergeSort tsIdLe).map Event.smp, true) := by
    simp [RandomSamplingNode.put, he, flush_collector]
  refine ⟨hput, List.mergeSort_perm r.samples tsIdLe,
    List.sorted_mergeSort tsIdLe_trans tsIdLe_total r.samples, ?_, ?_, ?_⟩
  · intro s
    rw [hput]
    simp only [List.mem_map]
    constructor
    · rintro ⟨x, hx, hsx⟩
      obtain rfl : x = s := by
        injection hsx
      exact (List.mergeSort_perm r.samples tsIdLe).mem_iff.mp hx
    · intro hs
      exact ⟨s, (List.mergeSort_perm r.samples tsIdLe).mem_iff.mpr hs, rfl⟩
  · simp [RandomSamplingNode.complete, flush_collector]
  · intro inputs hd hk h0
    have := runPuts_length inputs r hd (by simp [h0])
    rw [this.1, h0]
    simp

/-- C4 witness: three data samples into an empty reservoir of
capacity 2, flushed by `complete`: `min(3, 2) = 2` samples remain to be
emitted. -/
theorem C4_witness :
    (∀ s ∈ ([⟨1, 5, PayloadType.FLOAT, 1⟩, ⟨2, 3, PayloadType.FLOAT, 2⟩,
             ⟨3, 7, PayloadType.FLOAT, 3⟩] : List Sample),
       s.ptype ≠ PayloadType.EMPTY) ∧
    (0 < 2) ∧
    ((RandomSamplingNode.mk 2 [] (fun _ => 0) 0).runPuts
        [⟨1, 5, PayloadType.FLOAT, 1⟩, ⟨2, 3, PayloadType.FLOAT, 2⟩,
         ⟨3, 7, PayloadType.FLOAT, 3⟩]).samples.length = min 3 2 := by
  refine ⟨by decide, by decide, ?_⟩
  exact (C4_reservoir_flush (RandomSamplingNode.mk 2 [] (fun _ => 0) 0)
    EMPTY_SAMPLE rfl).2.2.2.2.2
    [⟨1, 5, PayloadType.FLOAT, 1⟩, ⟨2, 3, PayloadType.FLOAT, 2⟩,
     ⟨3, 7, PayloadType.FLOAT, 3⟩] (by decide) (by decide) rfl

theorem averageSamples_collector (ops : SWOps σ) (t : ℕ)
    (cs : List (ℕ × σ)) (es : List Event) :
    averageSamples ops collector t cs es =
      (cs.map (fun p => (p.1, if ops.ready p.2 then ops.reset p.2 else p.2)),
       es ++ cs.filterMap (fun p =>
         if ops.ready p.2 then
           some (Event.smp ⟨p.1, t, PayloadType.FLOAT, ops.value p.2⟩)
         else none) ++ [Event.smp EMPTY_SAMPLE],
       true) := by
  induction cs generalizing es with
  | nil => simp [averageSamples]
  | cons p rest ih =>
    by_cases hr : ops.ready p.2
    · simp [averageSamples, hr, ih]
    · simp [averageSamples, hr, ih]

/-- C1 (amended): on an empty sentinel carrying timestamp `t` a
sliding-window aggregator emits, for every series whose state is ready,
one synthetic sample `{paramid, timestamp := t, payload := FLOAT,
value := state.value()}` and resets exactly those states; after all
series it forwards the shared zero-initialised `EMPTY_SAMPLE`, whose
timestamp is 0 — not `t` — and `put` returns `true`. -/
theorem C1_sliding_window_sentinel (ops : SWOps σ)
    (counters : List (ℕ × σ)) (t : ℕ) :
    SlidingWindow.put ops collector counters [] (sentinelAt t) =
      (counters.map
        (fun p => (p.1, if ops.ready p.2 then ops.reset p.2 else p.2)),
       counters.filterMap (fun p =>
         if ops.ready p.2 then
           some (Event.smp ⟨p.1, t, PayloadType.FLOAT, ops.value p.2⟩)
         else none) ++ [Event.smp EMPTY_SAMPLE],
       true) ∧
    EMPTY_SAMPLE.timestamp = 0 := by
  constructor
  · have hty : (sentinelAt t).ptype = PayloadType.EMPTY := rfl
    simp [SlidingWindow.put, hty, averageSamples_collector, sentinelAt]
  · rfl

/-- C1 counterexample: scenario 2 of the spec (moving average,
inputs `(1,1,2.0), (1,2,4.0), (2,3,10.0)`, then a sentinel at
timestamp 10).  The sink receives the two synthesized averages and then
the shared empty sample whose timestamp is 0: no empty sentinel carrying
timestamp 10 reaches the sink, contradicting the claim's
`then a sentinel with timestamp 10`. -/
theorem C1_counterexample :
    (SlidingWindow.run movingAverageOps [] []
        [⟨1, 1, PayloadType.FLOAT, 2⟩, ⟨1, 2, PayloadType.FLOAT, 4⟩,
         ⟨2, 3, PayloadType.FLOAT, 10⟩, sentinelAt 10]).2 =
      [Event.smp ⟨1, 10, PayloadType.FLOAT, 3⟩,
       Event.smp ⟨2, 10, PayloadType.FLOAT, 10⟩,
       Event.smp EMPTY_SAMPLE] ∧
    ¬ (∃ e ∈ (SlidingWindow.run movingAverageOps [] []
        [⟨1, 1, PayloadType.FLOAT, 2⟩, ⟨1, 2, PayloadType.FLOAT, 4⟩,
         ⟨2, 3, PayloadType.FLOAT, 10⟩, sentinelAt 10]).2,
       ∃ s : Sample, e = Event.smp s ∧ s.ptype = PayloadType.EMPTY ∧
         s.timestamp = 10) := by
  have hrun : (SlidingWindow.run movingAverageOps [] []
        [⟨1, 1, PayloadType.FLOAT, 2⟩, ⟨1, 2, PayloadType.FLOAT, 4⟩,
         ⟨2, 3, PayloadType.FLOAT, 10⟩, sentinelAt 10]).2 =
      [Event.smp ⟨1, 10, PayloadType.FLOAT, 3⟩,
       Event.smp ⟨2, 10, PayloadType.FLOAT, 10⟩,
       Event.smp EMPTY_SAMPLE] := by
    norm_num [SlidingWindow.run, SlidingWindow.put, swAdd,
      averageSamples, movingAverageOps, sentinelAt, EMPTY_SAMPLE,
      PayloadType.FLOAT, PayloadType.EMPTY]
  refine ⟨hrun, ?_⟩
  rw [hrun]
  rintro ⟨e, he, s, rfl, hty, hts⟩
  simp only [List.mem_cons, List.not_mem_nil, or_false] at he
  rcases he with h | h | h <;>
    · injection h with h2
      rw [h2] at hty hts
      simp [EMPTY_SAMPLE, PayloadType.FLOAT, PayloadType.EMPTY] at hty hts

/-- C7 evaluation at the failing input: a blob sample (non-empty payload
type without `FLOAT_BIT`, here with blob flag set and union float view
`g`) put into a fresh moving-average window default-constructs a state
for its series and adds to it — `num` becomes 1, the state becomes
`ready` — so the per-series state does *not* stay unchanged, although
`put` does return `true`.  The source checks only for `EMPTY`, never for
`FLOAT_BIT`, contradicting its own `// ignore BLOBs` comment and the
claim. -/
theorem C7_blob_mutates_sliding_window (g : ℚ) :
    SlidingWindow.put movingAverageOps collector [] []
        ⟨1, 0, ⟨false, false, false, true⟩, g⟩ =
      ([(1, ⟨g, 1⟩)], [], true) ∧
    movingAverageOps.ready ⟨g, 1⟩ = true ∧
    (⟨false, false, false, true⟩ : PayloadType) ≠ PayloadType.EMPTY ∧
    (⟨false, false, false, true⟩ : PayloadType).float_bit = false := by
  refine ⟨?_, rfl, by decide, rfl⟩
  have hty : (⟨false, false, false, true⟩ : PayloadType) ≠
      PayloadType.EMPTY := by decide
  simp [SlidingWindow.put, swAdd, movingAverageOps, hty]

/-- C6: for a `FLOAT_BIT` data sample the anomaly-detector adapter
rejects a negative value by propagating
`set_error(AKU_EANOMALY_NEG_VAL)` to its successor and returning
`false`; a non-negative value is added to the detector and, when the
detector flags the series, forwarded with the `URGENT` flag or-ed into
the payload type, while a non-flagged sample is dropped with `put`
returning `true`. -/
theorem C6_anomaly_detector_put (ops : DetectorOps δ) (d : δ) (s : Sample)
    (hf : s.ptype.float_bit = true) :
    (s.value < 0 →
      AnomalyDetector.put ops collector d [] s =
        (d, [Event.err Status.eanomaly_neg_val], false)) ∧
    (0 ≤ s.value →
      ops.is_anomaly_candidate (ops.add d s.paramid s.value) s.paramid =
        true →
      AnomalyDetector.put ops collector d [] s =
        (ops.add d s.paramid s.value,
         [Event.smp { s with ptype := { s.ptype with urgent := true } }],
         true)) ∧
    (0 ≤ s.value →
      ops.is_anomaly_candidate (ops.add d s.paramid s.value) s.paramid =
        false →
      AnomalyDetector.put ops collector d [] s =
        (ops.add d s.paramid s.value, [], true)) := by
  have hne : s.ptype ≠ PayloadType.EMPTY := by
    intro h
    rw [h] at hf
    simp [PayloadType.EMPTY] at hf
  refine ⟨?_, ?_, ?_⟩
  · intro hneg
    simp [AnomalyDetector.put, hne, hf, hneg]
  · intro hpos hcand
    have hnneg : ¬ s.value < 0 := not_lt.mpr hpos
    simp [AnomalyDetector.put, hne, hf, hnneg, hcand]
  · intro hpos hcand
    have hnneg : ¬ s.value < 0 := not_lt.mpr hpos
    simp [AnomalyDetector.put, hne, hf, hnneg, hcand]

/-- C6 witness: a trivial detector over `Unit` and a concrete negative
sample. -/
theorem C6_witness :
    ((⟨4, 2, PayloadType.FLOAT, -1⟩ : Sample).ptype.float_bit = true) ∧
    ((-1 : ℚ) < 0) ∧
    AnomalyDetector.put
        (DetectorOps.mk (fun d _ _ => d) (fun _ _ => true) id) collector
        () [] ⟨4, 2, PayloadType.FLOAT, -1⟩ =
      ((), [Event.err Status.eanomaly_neg_val], false) := by
  refine ⟨rfl, by norm_num, ?_⟩
  exact (C6_anomaly_detector_put
    (DetectorOps.mk (fun d _ _ => d) (fun _ _ => true) id) ()
    ⟨4, 2, PayloadType.FLOAT, -1⟩ rfl).1 (by norm_num)

/-- C2 (amended): on an empty sentinel and on `complete` a Space-Saving
node computes the support `N*P`, emits one sample
`{paramid, payload := FLOAT|PARAMID_BIT, value := count}` for exactly the
entries with `N*P < count - error`, delivers them in descending order of
count (a permutation of the selected entries, pairwise descending in
value), and clears the counter map — but the cumulative weight `N` is
*not* reset: the next bucket continues from the accumulated `N`. -/
theorem C2_space_saver_flush (w : Bool) (ss : SpaceSaverState) (t : ℕ) :
    (ss.put w collector [] (sentinelAt t) = some (ss.count collector [])) ∧
    (ss.count collector [] =
      ({ ss with counters := [] },
       ((ss.counters.filterMap (fun it =>
           if ss.N * ss.P < it.2.count - it.2.error then
             some (⟨it.1, 0, PayloadType.PARAMID_FLOAT, it.2.count⟩ :
               Sample)
           else none)).mergeSort
          (fun a b => b.value ≤ a.value)).map Event.smp,
       true)) ∧
    ((ss.counters.filterMap (fun it =>
        if ss.N * ss.P < it.2.count - it.2.error then
          some (⟨it.1, 0, PayloadType.PARAMID_FLOAT, it.2.count⟩ : Sample)
        else none)).mergeSort (fun a b => b.value ≤ a.value)).Perm
      (ss.counters.filterMap (fun it =>
        if ss.N * ss.P < it.2.count - it.2.error then
          some (⟨it.1, 0, PayloadType.PARAMID_FLOAT, it.2.count⟩ : Sample)
        else none)) ∧
    List.Pairwise (fun a b : Sample => b.value ≤ a.value)
      ((ss.counters.filterMap (fun it =>
        if ss.N * ss.P < it.2.count - it.2.error then
          some (⟨it.1, 0, PayloadType.PARAMID_FLOAT, it.2.count⟩ : Sample)
        else none)).mergeSort (fun a b => b.value ≤ a.value)) ∧
    (ss.count collector []).1.N = ss.N ∧
    (ss.complete collector [] =
      ((ss.count collector []).1,
       ((ss.counters.filterMap (fun it =>
           if ss.N * ss.P < it.2.count - it.2.error then
             some (⟨it.1, 0, PayloadType.PARAMID_FLOAT, it.2.count⟩ :
               Sample)
           else none)).mergeSort
          (fun a b => b.value ≤ a.value)).map Event.smp ++
         [Event.complete])) := by
  have hcount : ss.count collector [] =
      ({ ss with counters := [] },
       ((ss.counters.filterMap (fun it =>
           if ss.N * ss.P < it.2.count - it.2.error then
             some (⟨it.1, 0, PayloadType.PARAMID_FLOAT, it.2.count⟩ :
               Sample)
           else none)).mergeSort
          (fun a b => b.value ≤ a.value)).map Event.smp,
       true) := by
    simp [SpaceSaverState.count, putAll_collector]
  refine ⟨?_, hcount, List.mergeSort_perm _ _, ?_, ?_, ?_⟩
  · simp [SpaceSaverState.put, sentinelAt, PayloadType.EMPTY]
  · have hs := @List.sorted_mergeSort Sample
      (fun a b : Sample => decide (b.value ≤ a.value))
      (fun a b c hab hbc => by
        simp only [decide_eq_true_eq] at hab hbc ⊢
        exact le_trans hbc hab)
      (fun a b => by
        simp only [Bool.or_eq_true, decide_eq_true_eq]
        exact le_total b.value a.value)
      (ss.counters.filterMap (fun it =>
        if ss.N * ss.P < it.2.count - it.2.error then
          some (⟨it.1, 0, PayloadType.PARAMID_FLOAT, it.2.count⟩ : Sample)
        else none))
    exact hs.imp (by simp)
  · rw [hcount]
  · simp [SpaceSaverState.complete, hcount]

/-- C2 counterexample: a concrete frequent-items node (ε = 1/2,
φ = 1/2) that has absorbed one sample of weight 1.  Flushing it on a
sentinel clears the counter map but leaves `N = 1`: the next bucket does
*not* start with `N = 0`, contradicting the claim's `the counter map and
the cumulative weight N are cleared`. -/
theorem C2_counterexample :
    (mkSpaceSaver (1/2) (1/2)).put false collector []
        ⟨1, 0, PayloadType.FLOAT, 1⟩ =
      some (⟨[(1, ⟨1, 0⟩)], 1, 2, 1/2⟩, [], true) ∧
    (SpaceSaverState.count ⟨[(1, ⟨1, 0⟩)], 1, 2, 1/2⟩ collector []).1 =
      ⟨[], 1, 2, 1/2⟩ ∧
    (1 : ℚ) ≠ 0 := by
  refine ⟨?_, ?_, by norm_num⟩
  · norm_num [mkSpaceSaver, ssCapacity, SpaceSaverState.put, ssFind,
      PayloadType.FLOAT, PayloadType.EMPTY]
    rw [show Int.toNat 2 = 2 from rfl]
    norm_num
  · norm_num [SpaceSaverState.count, putAll_collector,
      PayloadType.PARAMID_FLOAT]

/-- C5 evaluation at the failing input: a heavy-hitters node with
ε = 1/2 (capacity M = 2) holds `{1 ↦ count 2.5, 2 ↦ count 1.5}` after two
weighted samples.  A sample of the absent id 3 with weight 1 evicts the
minimum entry (id 2, count 1.5), but because the running minimum is a
C++ `size_t`, the evicted count is truncated to 1: the inserted entry is
`{count: 2, error: 1}` instead of the claim's
`{count: min_count + w = 2.5, error: min_count = 1.5}` (`N` does grow by
the weight, to 5).  The last two evaluations show the same outcome for
both iteration orders of the two-entry map, so the unordered map's
unspecified order does not matter here. -/
theorem C5_eviction_truncates_min :
    mkSpaceSaver (1/2) (1/10) =
      (⟨[], 0, 2, 1/10⟩ : SpaceSaverState) ∧
    SpaceSaverState.put true (⟨[], 0, 2, 1/10⟩ : SpaceSaverState)
        collector [] ⟨1, 0, PayloadType.FLOAT, 5/2⟩ =
      some (⟨[(1, ⟨5/2, 0⟩)], 5/2, 2, 1/10⟩, [], true) ∧
    SpaceSaverState.put true
        (⟨[(1, ⟨5/2, 0⟩)], 5/2, 2, 1/10⟩ : SpaceSaverState)
        collector [] ⟨2, 1, PayloadType.FLOAT, 3/2⟩ =
      some (⟨[(1, ⟨5/2, 0⟩), (2, ⟨3/2, 0⟩)], 4, 2, 1/10⟩, [], true) ∧
    SpaceSaverState.put true
        (⟨[(1, ⟨5/2, 0⟩), (2, ⟨3/2, 0⟩)], 4, 2, 1/10⟩ : SpaceSaverState)
        collector [] ⟨3, 2, PayloadType.FLOAT, 1⟩ =
      some (⟨[(1, ⟨5/2, 0⟩), (3, ⟨2, 1⟩)], 5, 2, 1/10⟩, [], true) ∧
    SpaceSaverState.put true
        (⟨[(2, ⟨3/2, 0⟩), (1, ⟨5/2, 0⟩)], 4, 2, 1/10⟩ : SpaceSaverState)
        collector [] ⟨3, 2, PayloadType.FLOAT, 1⟩ =
      some (⟨[(1, ⟨5/2, 0⟩), (3, ⟨2, 1⟩)], 5, 2, 1/10⟩, [], true) ∧
    ((2 : ℚ) ≠ 3/2 + 1 ∧ (1 : ℚ) ≠ 3/2) := by
  have ht1 : truncQ (5 / 2 : ℚ) = 2 := by
    simp only [truncQ]
    rw [show ⌊(5 / 2 : ℚ)⌋ = 2 by norm_num]
    rfl
  have ht2 : truncQ (3 / 2 : ℚ) = 1 := by
    simp only [truncQ]
    rw [show ⌊(3 / 2 : ℚ)⌋ = 1 by norm_num]
    rfl
  refine ⟨?_, ?_, ?_, ?_, ?_, by norm_num, by norm_num⟩
  · simp only [mkSpaceSaver, ssCapacity]
    rw [show ⌈(1 : ℚ) / (1 / 2)⌉ = 2 by norm_num]
    rfl
  · norm_num [SpaceSaverState.put, ssFind, PayloadType.FLOAT,
      PayloadType.EMPTY]
  · norm_num [SpaceSaverState.put, ssFind, PayloadType.FLOAT,
      PayloadType.EMPTY]
  · norm_num [SpaceSaverState.put, ssFind, ssScanMin, sizeTMax,
      PayloadType.FLOAT, PayloadType.EMPTY, ht1, ht2]
  · norm_num [SpaceSaverState.put, ssFind, ssScanMin, sizeTMax,
      PayloadType.FLOAT, PayloadType.EMPTY, ht1, ht2]

theorem ssBump_length (id : ℕ) (w : ℚ) (l : List (ℕ × SSItem)) :
    (ssBump id w l).length = l.length := by
  induction l with
  | nil => rfl
  | cons p rest ih =>
    by_cases h : p.1 = id
    · simp [ssBump, h]
    · simp [ssBump, h, ih]

theorem ssScanMin_lt (l : List (ℕ × SSItem)) :
    ∀ (i : ℕ) (mi : Option ℕ) (mn : ℕ),
      (∀ j, mi = some j → j < i) →
      ∀ ix m, ssScanMin l i (mi, mn) = (some ix, m) → ix < i + l.length := by
  induction l with
  | nil =>
    intro i mi mn hmi ix m h
    simp only [ssScanMin] at h
    obtain ⟨h1, _⟩ := Prod.mk.injEq .. ▸ h
    have := hmi ix (by rw [h1])
    omega
  | cons p rest ih =>
    intro i mi mn hmi ix m h
    simp only [ssScanMin] at h
    by_cases hc : p.2.count < (mn : ℚ)
    · rw [if_pos hc] at h
      have := ih (i + 1) (some i) (truncQ p.2.count)
        (by rintro j hj; injection hj with hj; omega) ix m h
      simpa [Nat.add_comm, Nat.add_assoc, Nat.add_left_comm] using this
    · rw [if_neg hc] at h
      have := ih (i + 1) mi mn (fun j hj => Nat.lt_succ_of_lt (hmi j hj))
        ix m h
      simpa [Nat.add_comm, Nat.add_assoc, Nat.add_left_comm] using this

theorem ssCount_state (ss : SpaceSaverState) (next : NodeFn ν) (nst : ν) :
    (ss.count next nst).1 = { ss with counters := [] } ∨
      (ss.count next nst).1 = ss := by
  unfold SpaceSaverState.count
  dsimp only
  generalize putAll next nst _ = pr
  rcases pr with ⟨n1, b⟩
  cases b
  · exact Or.inr rfl
  · exact Or.inl rfl

/-- C8: the counter map of a Space-Saving node never exceeds the
capacity: the constructor establishes `|map| = 0 ≤ M` with
`M = ceil(1/ε)`, every successful `put` (increment, insert below
capacity, or evict-then-insert at capacity) preserves `|map| ≤ M` and
leaves `M` unchanged, and `count` (flush) preserves it as well. -/
theorem C8_space_saver_capacity (e p : ℚ) (w : Bool)
    (ss : SpaceSaverState) (next : NodeFn ν) (nst : ν) (s : Sample)
    (hinv : ss.counters.length ≤ ss.M) :
    ((mkSpaceSaver e p).counters.length ≤ (mkSpaceSaver e p).M ∧
      (mkSpaceSaver e p).M = ssCapacity e) ∧
    (∀ res ∈ ss.put w next nst s,
      res.1.counters.length ≤ ss.M ∧ res.1.M = ss.M) ∧
    ((ss.count next nst).1.counters.length ≤ ss.M ∧
      (ss.count next nst).1.M = ss.M) := by
  have hcount : (ss.count next nst).1.counters.length ≤ ss.M ∧
      (ss.count next nst).1.M = ss.M := by
    rcases ssCount_state ss next nst with h | h
    · rw [h]
      exact ⟨by simp, rfl⟩
    · rw [h]
      exact ⟨hinv, rfl⟩
  refine ⟨⟨by simp [mkSpaceSaver], rfl⟩, ?_, hcount⟩
  intro res hres
  rw [Option.mem_def] at hres
  by_cases hty : s.ptype = PayloadType.EMPTY
  · rw [SpaceSaverState.put, if_pos hty] at hres
    obtain rfl : ss.count next nst = res := by injection hres
    exact hcount
  · rw [SpaceSaverState.put, if_neg hty] at hres
    by_cases hw : (w && !s.ptype.float_bit) = true
    · rw [if_pos hw] at hres
      obtain rfl : (ss, nst, true) = res := by injection hres
      exact ⟨hinv, rfl⟩
    · rw [if_neg (by simpa using hw)] at hres
      dsimp only at hres
      rcases hfind : ssFind s.paramid ss.counters with _ | item
      · rw [hfind] at hres
        by_cases hM : ss.counters.length = ss.M
        · rw [if_pos hM] at hres
          rcases hscan : ssScanMin ss.counters 0 (none, sizeTMax) with
            ⟨mi, mn⟩
          rcases mi with _ | ix
          · rw [hscan] at hres
            exact absurd hres (by simp)
          · rw [hscan] at hres
            have hix : ix < ss.counters.length := by
              have := ssScanMin_lt ss.counters 0 none sizeTMax
                (by rintro j hj; cases hj) ix mn hscan
              simpa using this
            obtain rfl :
                ({ ss with
                     counters := ss.counters.eraseIdx ix ++
                       [(s.paramid,
                         ⟨(if w = true then s.value else 1) + (mn : ℚ),
                          (mn : ℚ)⟩)],
                     N := ss.N + (if w = true then s.value else 1) },
                 nst, true) = res := by
              injection hres
            refine ⟨?_, rfl⟩
            simp only [List.length_append, List.length_eraseIdx,
              if_pos hix, List.length_singleton]
            omega
        · rw [if_neg hM] at hres
          obtain rfl :
              ({ ss with
                   counters := ss.counters ++
                     [(s.paramid, ⟨(if w = true then s.value else 1), 0⟩)],
                   N := ss.N + (if w = true then s.value else 1) },
               nst, true) = res := by
            injection hres
          refine ⟨?_, rfl⟩
          simp only [List.length_append, List.length_singleton]
          omega
      · rw [hfind] at hres
        obtain rfl :
            ({ ss with
                 counters := ssBump s.paramid
                   (if w = true then s.value else 1) ss.counters,
                 N := ss.N + (if w = true then s.value else 1) },
             nst, true) = res := by
          injection hres
        exact ⟨by rw [ssBump_length]; exact hinv, rfl⟩

/-- C8 witness: a fresh frequent-items node with ε = 1 (capacity 1)
accepting its first sample keeps `|map| = 1 ≤ M = 1`. -/
theorem C8_witness :
    ((mkSpaceSaver 1 0).counters.length ≤ (mkSpaceSaver 1 0).M) ∧
    (∀ res ∈ (mkSpaceSaver 1 0).put false collector []
        (⟨5, 0, PayloadType.FLOAT, 1⟩ : Sample),
      res.1.counters.length ≤ (mkSpaceSaver 1 0).M ∧
        res.1.M = (mkSpaceSaver 1 0).M) := by
  refine ⟨by simp [mkSpaceSaver], ?_⟩
  exact (C8_space_saver_capacity 1 0 false (mkSpaceSaver 1 0) collector []
    ⟨5, 0, PayloadType.FLOAT, 1⟩ (by simp [mkSpaceSaver])).2.1

/-- C3 counterexample: running scenario 1 (Δ = 10, include-set {7},
inputs `(7,3,1.0), (8,4,9.0), (7,12,2.0), (7,25,3.0)`, then stop), the
sink's trace is not the claimed one: the group-by driver advances its
bounds only once per incoming sample, so the gap from bucket
`[10,20)` to timestamp 25 produces only `sentinel@20` — the claimed
`sentinel@30` never appears. -/
theorem C3_counterexample :
    c3Trace ≠
      [Event.smp ⟨7, 3, PayloadType.FLOAT, 1⟩, Event.smp (sentinelAt 10),
       Event.smp ⟨7, 12, PayloadType.FLOAT, 2⟩, Event.smp (sentinelAt 20),
       Event.smp (sentinelAt 30), Event.smp ⟨7, 25, PayloadType.FLOAT, 3⟩,
       Event.complete] := by
  decide

/-- C3 (amended): the sink receives exactly `(7,3,1.0), sentinel@10,
(7,12,2.0), sentinel@20, (7,25,3.0)` and then one `complete` — a single
sentinel per arriving sample, so no `sentinel@30` precedes
`(7,25,3.0)`. -/
theorem C3_scenario_trace :
    c3Trace =
      [Event.smp ⟨7, 3, PayloadType.FLOAT, 1⟩, Event.smp (sentinelAt 10),
       Event.smp ⟨7, 12, PayloadType.FLOAT, 2⟩, Event.smp (sentinelAt 20),
       Event.smp ⟨7, 25, PayloadType.FLOAT, 3⟩, Event.complete] := by
  decide

theorem getStr_error (pt : List (String × String)) (key : String)
    (er : Raised) (h : getStr pt key = Except.error er) :
    er = Raised.ptreeErr := by
  unfold getStr at h
  split at h
  · exact absurd h (by simp)
  · injection h with h
    exact h.symm

theorem castU32_error (p : Parsers) (s : String) (er : Raised)
    (h : castU32 p s = Except.error er) : er = Raised.badLexicalCast := by
  unfold castU32 at h
  split at h
  · exact absurd h (by simp)
  · injection h with h
    exact h.symm

theorem castF64_error (p : Parsers) (s : String) (er : Raised)
    (h : castF64 p s = Except.error er) : er = Raised.badLexicalCast := by
  unfold castF64 at h
  split at h
  · exact absurd h (by simp)
  · injection h with h
    exact h.symm

theorem getF64_error (pt : List (String × String)) (p : Parsers)
    (key : String) (er : Raised) (h : getF64 pt p key = Except.error er) :
    er = Raised.ptreeErr := by
  unfold getF64 at h
  split at h
  · split at h
    · exact absurd h (by simp)
    · injection h with h
      exact h.symm
  · injection h with h
    exact h.symm

theorem getU32_error (pt : List (String × String)) (p : Parsers)
    (key : String) (er : Raised) (h : getU32 pt p key = Except.error er) :
    er = Raised.ptreeErr := by
  unfold getU32 at h
  split at h
  · split at h
    · exact absurd h (by simp)
    · injection h with h
      exact h.symm
  · injection h with h
    exact h.symm

theorem getBool_error (pt : List (String × String)) (p : Parsers)
    (key : String) (er : Raised) (h : getBool pt p key = Except.error er) :
    er = Raised.ptreeErr := by
  unfold getBool at h
  split at h
  · split at h
    · exact absurd h (by simp)
    · injection h with h
      exact h.symm
  · injection h with h
    exact h.symm

theorem parseAnomalyDetectorType_error (pt : List (String × String))
    (p : Parsers) (er : Raised)
    (h : parseAnomalyDetectorType pt p = Except.error er) :
    er = Raised.ptreeErr ∨
      er = Raised.queryParseErr "Unknown forecasting method" := by
  unfold parseAnomalyDetectorType at h
  split at h
  · injection h with h
    subst h
    exact Or.inl (getBool_error _ _ _ _ (by assumption))
  · split at h
    · injection h with h
      subst h
      exact Or.inl (getStr_error _ _ _ (by assumption))
    · repeat' split at h
      all_goals try exact Except.noConfusion h
      injection h with h
      subst h
      exact Or.inr rfl

set_option maxHeartbeats 1000000 in
theorem makeSamplerBody_error_cases (pt : List (String × String))
    (p : Parsers) (er : Raised)
    (h : makeSamplerBody pt p = Except.error er) :
    er = Raised.ptreeErr ∨ er = Raised.badLexicalCast ∨
    er = Raised.nodeExc NodeType.RandomSampler
      "invalid sampler description, unknown algorithm" ∨
    er = Raised.queryParseErr "Unknown forecasting method" ∨
    er = Raised.untypedStr "Not implemented" := by
  unfold makeSamplerBody at h
  repeat' split at h
  all_goals try exact Except.noConfusion h
  all_goals injection h with h
  all_goals subst h
  all_goals first
    | exact Or.inr (Or.inr (Or.inl rfl))
    | exact Or.inr (Or.inr (Or.inr (Or.inr rfl)))
    | exact Or.inl (getStr_error _ _ _ (by assumption))
    | exact Or.inl (getF64_error _ _ _ _ (by assumption))
    | exact Or.inl (getU32_error _ _ _ _ (by assumption))
    | exact Or.inr (Or.inl (castU32_error _ _ _ (by assumption)))
    | exact Or.inr (Or.inl (castF64_error _ _ _ (by assumption)))
    | (rcases parseAnomalyDetectorType_error _ _ _ (by assumption) with
        h2 | h2
       · exact Or.inl h2
       · exact Or.inr (Or.inr (Or.inr (Or.inl h2))))

theorem make_sampler_of_ptree (pt : List (String × String)) (p : Parsers)
    (h : makeSamplerBody pt p = Except.error Raised.ptreeErr) :
    make_sampler pt p = Except.error (BuildError.nodeException
      NodeType.RandomSampler "invalid sampler description") := by
  unfold make_sampler
  rw [h]

theorem make_sampler_of_cast (pt : List (String × String)) (p : Parsers)
    (h : makeSamplerBody pt p = Except.error Raised.badLexicalCast) :
    make_sampler pt p = Except.error (BuildError.nodeException
      NodeType.RandomSampler
      "invalid sampler description, valid integer expected") := by
  unfold make_sampler
  rw [h]

/-- C9 (amended): for every malformed description in the claim's three
classes — absent or unknown name, missing required parameter,
unparseable numeric value — `make_sampler` raises the typed
`NodeException`, but its tag is always `Node::RandomSampler` regardless
of the node kind the description names; indeed every `NodeException` the
builder can raise carries that fixed tag. -/
theorem C9_builder_error_tag (pt : List (String × String)) (p : Parsers) :
    (pt.lookup "name" = none →
      make_sampler pt p = Except.error (BuildError.nodeException
        NodeType.RandomSampler "invalid sampler description")) ∧
    (∀ nm, pt.lookup "name" = some nm →
      nm ≠ "reservoir" → nm ≠ "moving-average" → nm ≠ "moving-median" →
      nm ≠ "frequent-items" → nm ≠ "heavy-hitters" →
      nm ≠ "anomaly-detector" →
      make_sampler pt p = Except.error (BuildError.nodeException
        NodeType.RandomSampler
        "invalid sampler description, unknown algorithm")) ∧
    (pt.lookup "name" = some "reservoir" →
      missingKey pt "size" ∨ badU32 pt p "size" →
      ∃ msg, make_sampler pt p =
        Except.error (BuildError.nodeException NodeType.RandomSampler
          msg)) ∧
    (∀ nm, pt.lookup "name" = some nm →
      (nm = "frequent-items" ∨ nm = "heavy-hitters") →
      missingKey pt "error" ∨ badF64 pt p "error" ∨
        missingKey pt "portion" ∨ badF64 pt p "portion" →
      ∃ msg, make_sampler pt p =
        Except.error (BuildError.nodeException NodeType.RandomSampler
          msg)) ∧
    (pt.lookup "name" = some "anomaly-detector" →
      missingKey pt "threshold" ∨ badF64 pt p "threshold" ∨
        missingKey pt "approx" ∨ badBool pt p "approx" ∨
        missingKey pt "method" ∨
        ((pt.lookup "method" = some "sma" ∨
            pt.lookup "method" = some "ewma") ∧
          (missingKey pt "window" ∨ badU32 pt p "window")) →
      ∃ msg, make_sampler pt p =
        Except.error (BuildError.nodeException NodeType.RandomSampler
          msg)) ∧
    (∀ t m, make_sampler pt p =
        Except.error (BuildError.nodeException t m) →
      t = NodeType.RandomSampler) := by
  refine ⟨?_, ?_, ?_, ?_, ?_, ?_⟩
  · intro hname
    exact make_sampler_of_ptree pt p
      (by simp [makeSamplerBody, getStr, hname])
  · intro nm hname h1 h2 h3 h4 h5 h6
    have hbody : makeSamplerBody pt p = Except.error
        (Raised.nodeExc NodeType.RandomSampler
          "invalid sampler description, unknown algorithm") := by
      simp [makeSamplerBody, getStr, hname, h1, h2, h3, h4, h5, h6]
    unfold make_sampler
    rw [hbody]
  · intro hname hbad
    rcases hbad with hmiss | ⟨v, hv, hu⟩
    · have hm2 : pt.lookup "size" = none := hmiss
      exact ⟨_, make_sampler_of_ptree pt p
        (by simp [makeSamplerBody, getStr, hname, hm2])⟩
    · exact ⟨_, make_sampler_of_cast pt p
        (by simp [makeSamplerBody, getStr, castU32, hname, hv, hu])⟩
  · intro nm hname hnm hbad
    have hcore : ∀ w : Bool,
        pt.lookup "name" =
          some (if w then "heavy-hitters" else "frequent-items") →
        ∃ msg, make_sampler pt p =
          Except.error (BuildError.nodeException NodeType.RandomSampler
            msg) := by
      intro w hname2
      have herr : makeSamplerBody pt p = Except.error Raised.ptreeErr ∨
          makeSamplerBody pt p =
            Except.error Raised.badLexicalCast := by
        rcases hbad with hmiss | ⟨v, hv, hu⟩ | hmiss | ⟨v, hv, hu⟩
        · have hm2 : pt.lookup "error" = none := hmiss
          cases w
          · exact Or.inl
              (by simp [makeSamplerBody, getStr, hname2, hm2])
          · exact Or.inl
              (by simp [makeSamplerBody, getStr, hname2, hm2])
        · rcases hp : pt.lookup "portion" with _ | pv
          · cases w
            · exact Or.inl
                (by simp [makeSamplerBody, getStr, hname2, hv, hp])
            · exact Or.inl
                (by simp [makeSamplerBody, getStr, hname2, hv, hp])
          · cases w
            · exact Or.inr (by simp [makeSamplerBody, getStr, castF64,
                hname2, hv, hp, hu])
            · exact Or.inr (by simp [makeSamplerBody, getStr, castF64,
                hname2, hv, hp, hu])
        · have hm2 : pt.lookup "portion" = none := hmiss
          rcases he : pt.lookup "error" with _ | ev
          · cases w
            · exact Or.inl
                (by simp [makeSamplerBody, getStr, hname2, he])
            · exact Or.inl
                (by simp [makeSamplerBody, getStr, hname2, he])
          · cases w
            · exact Or.inl
                (by simp [makeSamplerBody, getStr, hname2, he, hm2])
            · exact Or.inl
                (by simp [makeSamplerBody, getStr, hname2, he, hm2])
        · rcases he : pt.lookup "error" with _ | ev
          · cases w
            · exact Or.inl
                (by simp [makeSamplerBody, getStr, hname2, he])
            · exact Or.inl
                (by simp [makeSamplerBody, getStr, hname2, he])
          · rcases hep : p.f64 ev with _ | eq2
            · cases w
              · exact Or.inr (by simp [makeSamplerBody, getStr, castF64,
                  hname2, he, hv, hep])
              · exact Or.inr (by simp [makeSamplerBody, getStr, castF64,
                  hname2, he, hv, hep])
            · cases w
              · exact Or.inr (by simp [makeSamplerBody, getStr, castF64,
                  hname2, he, hv, hep, hu])
              · exact Or.inr (by simp [makeSamplerBody, getStr, castF64,
                  hname2, he, hv, hep, hu])
      rcases herr with h | h
      · exact ⟨_, make_sampler_of_ptree pt p h⟩
      · exact ⟨_, make_sampler_of_cast pt p h⟩
    rcases hnm with rfl | rfl
    · exact hcore false hname
    · exact hcore true hname
  · intro hname hbad
    suffices hfin : makeSamplerBody pt p = Except.error Raised.ptreeErr by
      exact ⟨_, make_sampler_of_ptree pt p hfin⟩
    have hc1 : slidingWindowMethods.contains FcastMethod.SMA = true := rfl
    have hc2 : slidingWindowMethods.contains FcastMethod.SMA_SKETCH =
        true := rfl
    have hc3 : slidingWindowMethods.contains FcastMethod.EWMA = true :=
      rfl
    have hc4 : slidingWindowMethods.contains FcastMethod.EWMA_SKETCH =
        true := rfl
    rcases hbad with hmiss | ⟨v, hv, hu⟩ | hmiss | ⟨v, hv, hu⟩ | hmiss |
      ⟨hmv, hwbad⟩
    · have hm2 : pt.lookup "threshold" = none := hmiss
      simp [makeSamplerBody, getStr, getF64, hname, hm2]
    · simp [makeSamplerBody, getStr, getF64, hname, hv, hu]
    · have hm2 : pt.lookup "approx" = none := hmiss
      rcases ht : pt.lookup "threshold" with _ | tv
      · simp [makeSamplerBody, getStr, getF64, hname, ht]
      · rcases htp : p.f64 tv with _ | tq
        · simp [makeSamplerBody, getStr, getF64, hname, ht, htp]
        · simp [makeSamplerBody, getStr, getF64, parseAnomalyDetectorType,
            getBool, hname, ht, htp, hm2]
    · rcases ht : pt.lookup "threshold" with _ | tv
      · simp [makeSamplerBody, getStr, getF64, hname, ht]
      · rcases htp : p.f64 tv with _ | tq
        · simp [makeSamplerBody, getStr, getF64, hname, ht, htp]
        · simp [makeSamplerBody, getStr, getF64, parseAnomalyDetectorType,
            getBool, hname, ht, htp, hv, hu]
    · have hm2 : pt.lookup "method" = none := hmiss
      rcases ht : pt.lookup "threshold" with _ | tv
      · simp [makeSamplerBody, getStr, getF64, hname, ht]
      · rcases htp : p.f64 tv with _ | tq
        · simp [makeSamplerBody, getStr, getF64, hname, ht, htp]
        · rcases ha : pt.lookup "approx" with _ | av
          · simp [makeSamplerBody, getStr, getF64, parseAnomalyDetectorType,
              getBool, hname, ht, htp, ha]
          · rcases hab : p.bool av with _ | ab
            · simp [makeSamplerBody, getStr, getF64, parseAnomalyDetectorType,
                getBool, hname, ht, htp, ha, hab]
            · simp [makeSamplerBody, getStr, getF64, parseAnomalyDetectorType,
                getBool, getStr, hname, ht, htp, ha, hab, hm2]
    · rcases ht : pt.lookup "threshold" with _ | tv
      · simp [makeSamplerBody, getStr, getF64, hname, ht]
      · rcases htp : p.f64 tv with _ | tq
        · simp [makeSamplerBody, getStr, getF64, hname, ht, htp]
        · rcases ha : pt.lookup "approx" with _ | av
          · simp [makeSamplerBody, getStr, getF64, parseAnomalyDetectorType,
              getBool, hname, ht, htp, ha]
          · rcases hab : p.bool av with _ | ab
            · simp [makeSamplerBody, getStr, getF64, parseAnomalyDetectorType,
                getBool, hname, ht, htp, ha, hab]
            · have hwfin : ∀ mth : FcastMethod,
                  slidingWindowMethods.contains mth = true →
                  parseAnomalyDetectorType pt p = Except.ok mth →
                  makeSamplerBody pt p =
                    Except.error Raised.ptreeErr := by
                intro mth hcont hparse
                rcases hwbad with hwm | ⟨wv, hwv, hwu⟩
                · have hw2 : pt.lookup "window" = none := hwm
                  simp only [makeSamplerBody, getStr, getF64, getU32,
                    hname, ht, htp, hparse, hcont]
                  simp [hw2]
                · simp only [makeSamplerBody, getStr, getF64, getU32,
                    hname, ht, htp, hparse, hcont]
                  simp [hwv, hwu]
              rcases hmv with hm | hm <;> cases ab
              · exact hwfin FcastMethod.SMA hc1
                  (by simp [parseAnomalyDetectorType, getBool, getStr,
                    ha, hab, hm])
              · exact hwfin FcastMethod.SMA_SKETCH hc2
                  (by simp [parseAnomalyDetectorType, getBool, getStr,
                    ha, hab, hm])
              · exact hwfin FcastMethod.EWMA hc3
                  (by simp [parseAnomalyDetectorType, getBool, getStr,
                    ha, hab, hm])
              · exact hwfin FcastMethod.EWMA_SKETCH hc4
                  (by simp [parseAnomalyDetectorType, getBool, getStr,
                    ha, hab, hm])
  · intro t m h
    unfold make_sampler at h
    rcases hb : makeSamplerBody pt p with er | n
    · rw [hb] at h
      rcases makeSamplerBody_error_cases pt p er hb with rfl | rfl | rfl |
        rfl | rfl <;> simp_all
    · rw [hb] at h
      simp at h

/-- C9 counterexample: the description `{name: "heavy-hitters"}` with its
required `error` parameter missing names a SpaceSaver node (tag
`Node::SpaceSaver`), yet the builder's typed error carries the tag
`Node::RandomSampler` — not the tag of the offending node's kind. -/
theorem C9_counterexample :
    make_sampler [("name", "heavy-hitters")] nilParsers =
      Except.error (BuildError.nodeException NodeType.RandomSampler
        "invalid sampler description") ∧
    tagOfName "heavy-hitters" = some NodeType.SpaceSaver ∧
    NodeType.RandomSampler ≠ NodeType.SpaceSaver := by
  refine ⟨?_, by decide, by decide⟩
  rfl

/-- C9 witness for the amended theorem: a description with no `name` key
at all yields the `NodeException` tagged `Node::RandomSampler`. -/
theorem C9_witness :
    (([] : List (String × String)).lookup "name" = none) ∧
    make_sampler [] nilParsers =
      Except.error (BuildError.nodeException NodeType.RandomSampler
        "invalid sampler description") :=
  ⟨rfl, (C9_builder_error_tag [] nilParsers).1 rfl⟩
